import Mathlib

/-!
Verification of the pose-matching core of the `prodhacksshoot` repository.

The definitions below are shallow embeddings of the TypeScript camera pages:
* `src/app/camera/page.tsx` — the manual-capture variant;
* `src/unnamed/part_003` — the auto-capture variant.

Numeric values that the source stores in IEEE doubles are modelled as exact
rationals (`ℚ`); the single irrational operation (`Math.sqrt`) is modelled by
`Real.sqrt`.  JavaScript `null`/`undefined` is modelled by `Option`.
-/

/-- A MediaPipe landmark: `{x, y, z?, visibility?}`, coordinates normalized
to the source frame (src/app/camera/page.tsx line 17). -/
structure Landmark where
  x : ℚ
  y : ℚ
  z : Option ℚ := none
  visibility : Option ℚ := none
deriving DecidableEq, Repr

/-- `PoseLandmarks = Landmark[] | null` (src/app/camera/page.tsx line 18). -/
abbrev PoseLandmarks := Option (List Landmark)

/-- Template image dimensions `{width, height}` in pixels. -/
structure ImageSize where
  width : ℚ
  height : ℚ
deriving DecidableEq, Repr

/-- A letterbox rectangle `(boxX, boxY, boxW, boxH)` inside the camera frame. -/
structure Box where
  x : ℚ
  y : ℚ
  w : ℚ
  h : ℚ
deriving DecidableEq, Repr

-- ---- Scoring & success constants (src/app/camera/page.tsx lines 21-33) ----

/-- `KEY_LANDMARK_INDICES = [11, 12, 13, 14, 15, 16, 23, 24, 25, 26]`. -/
def KEY_LANDMARK_INDICES : List ℕ := [11, 12, 13, 14, 15, 16, 23, 24, 25, 26]

/-- `MIN_VISIBLE_LANDMARKS = 5`. -/
def MIN_VISIBLE_LANDMARKS : ℕ := 5

/-- `CAM_W = 640`. -/
def CAM_W : ℚ := 640

/-- `CAM_H = 480`. -/
def CAM_H : ℚ := 480

/-- `SUCCESS_THRESHOLD = 78` (manual-capture variant, src/app/camera/page.tsx line 22). -/
def SUCCESS_THRESHOLD : ℤ := 78

/-- `GUIDANCE_MAX_MATCH = 50`. -/
def GUIDANCE_MAX_MATCH : ℤ := 50

/-- `CENTER_LEFT = 0.38`. -/
def CENTER_LEFT : ℚ := 0.38

/-- `CENTER_RIGHT = 0.62`. -/
def CENTER_RIGHT : ℚ := 0.62

/-- `SHOULDER_WIDTH_TOO_BIG = 0.42`. -/
def SHOULDER_WIDTH_TOO_BIG : ℚ := 0.42

/-- `SHOULDER_WIDTH_TOO_SMALL = 0.16`. -/
def SHOULDER_WIDTH_TOO_SMALL : ℚ := 0.16

-- ---- Letterbox projector ----

/-- `A_t = templateImageSize ? width/height : A_c`
(src/app/camera/page.tsx line 59). -/
def templateAspect (templateImageSize : Option ImageSize) (A_c : ℚ) : ℚ :=
  match templateImageSize with
  | some size => size.width / size.height
  | none => A_c

/-- The letterbox rectangle as computed inline in the scoring path
(`computeMatchScore`, src/app/camera/page.tsx lines 57-71,
src/unnamed/part_003 lines 53-67). -/
def scoringLetterbox (Cw Ch : ℚ) (templateImageSize : Option ImageSize) : Box :=
  let A_c := Cw / Ch
  let A_t := templateAspect templateImageSize A_c
  if A_t < A_c then
    let boxH := Ch
    let boxW := Ch * A_t
    let boxX := (Cw - boxW) / 2
    let boxY : ℚ := 0
    { x := boxX, y := boxY, w := boxW, h := boxH }
  else
    let boxW := Cw
    let boxH := Cw / A_t
    let boxX : ℚ := 0
    let boxY := (Ch - boxH) / 2
    { x := boxX, y := boxY, w := boxW, h := boxH }

/-- The letterbox rectangle as computed inline in the render path
(`draw`, src/app/camera/page.tsx lines 390-399,
src/unnamed/part_003 lines 483-492). -/
def renderLetterbox (Cw Ch : ℚ) (templateImageSize : Option ImageSize) : Box :=
  let A_c := Cw / Ch
  let A_t := templateAspect templateImageSize A_c
  if A_t < A_c then
    let boxH := Ch
    let boxW := Ch * A_t
    let boxX := (Cw - boxW) / 2
    let boxY : ℚ := 0
    { x := boxX, y := boxY, w := boxW, h := boxH }
  else
    let boxW := Cw
    let boxH := Cw / A_t
    let boxX : ℚ := 0
    let boxY := (Ch - boxH) / 2
    { x := boxX, y := boxY, w := boxW, h := boxH }

/-- The letterbox rectangle as computed inline in the capture-cropping path
(`performCapture`, src/unnamed/part_003 lines 550-561). -/
def captureLetterbox (Cw Ch : ℚ) (templateImageSize : Option ImageSize) : Box :=
  let A_c := Cw / Ch
  let A_t := templateAspect templateImageSize A_c
  if A_t < A_c then
    let boxH := Ch
    let boxW := Ch * A_t
    let boxX := (Cw - boxW) / 2
    let boxY : ℚ := 0
    { x := boxX, y := boxY, w := boxW, h := boxH }
  else
    let boxW := Cw
    let boxH := Cw / A_t
    let boxX : ℚ := 0
    let boxY := (Ch - boxH) / 2
    { x := boxX, y := boxY, w := boxW, h := boxH }

/-- The letterbox rectangle as the specification words it: if `A_t < A_c`
then `boxH = Ch`, `boxW = Ch·A_t`, `boxX = (Cw − boxW)/2`, `boxY = 0`;
otherwise `boxW = Cw`, `boxH = Cw/A_t`, `boxX = 0`, `boxY = (Ch − boxH)/2`,
with `A_t = A_c` as fallback when the template size is unknown. -/
def letterboxSpec (Cw Ch : ℚ) (templateImageSize : Option ImageSize) : Box :=
  let A_c := Cw / Ch
  let A_t := templateAspect templateImageSize A_c
  if A_t < A_c then
    { x := (Cw - Ch * A_t) / 2, y := 0, w := Ch * A_t, h := Ch }
  else
    { x := 0, y := (Ch - Cw / A_t) / 2, w := Cw, h := Cw / A_t }

/-- C2: for every camera frame size and template size, the letterbox rectangle
satisfies the two-case formula of the specification, and the scoring, render
and capture-cropping code paths all compute this same rectangle. -/
theorem letterbox_paths_agree (Cw Ch : ℚ) (templateImageSize : Option ImageSize) :
    scoringLetterbox Cw Ch templateImageSize = letterboxSpec Cw Ch templateImageSize ∧
    renderLetterbox Cw Ch templateImageSize = letterboxSpec Cw Ch templateImageSize ∧
    captureLetterbox Cw Ch templateImageSize = letterboxSpec Cw Ch templateImageSize ∧
    (templateAspect templateImageSize (Cw / Ch) < Cw / Ch →
      scoringLetterbox Cw Ch templateImageSize =
        { x := (Cw - Ch * templateAspect templateImageSize (Cw / Ch)) / 2, y := 0,
          w := Ch * templateAspect templateImageSize (Cw / Ch), h := Ch }) ∧
    (¬ templateAspect templateImageSize (Cw / Ch) < Cw / Ch →
      scoringLetterbox Cw Ch templateImageSize =
        { x := 0, y := (Ch - Cw / templateAspect templateImageSize (Cw / Ch)) / 2,
          w := Cw, h := Cw / templateAspect templateImageSize (Cw / Ch) }) := by
  refine ⟨rfl, rfl, rfl, ?_, ?_⟩ <;> intro h <;> simp [scoringLetterbox, h]

/-- Witness for C2: a 3:4 (tall) template inside the 4:3 camera frame gives the
full-height, horizontally centered box. -/
theorem letterbox_paths_agree_witness :
    (templateAspect (some ⟨480, 640⟩) (640 / 480) < (640 : ℚ) / 480) ∧
    scoringLetterbox 640 480 (some ⟨480, 640⟩) =
      { x := (640 - 480 * templateAspect (some ⟨480, 640⟩) (640 / 480)) / 2, y := 0,
        w := 480 * templateAspect (some ⟨480, 640⟩) (640 / 480), h := 480 } :=
  ⟨by norm_num [templateAspect],
   (letterbox_paths_agree 640 480 (some ⟨480, 640⟩)).2.2.2.1 (by norm_num [templateAspect])⟩

-- ---- Match scorer (src/app/camera/page.tsx lines 52-91, src/unnamed/part_003 lines 48-87) ----

/-- `t?.visibility ?? 1`: a missing visibility field defaults to `1`
(src/app/camera/page.tsx lines 77-78). -/
def visVal (lm : Landmark) : ℚ :=
  lm.visibility.getD 1

/-- The per-index guard of the scoring loop: `template[i]` and `live[i]` must
both exist and the continue-test `tVis < 0.5 || lVis < 0.5` must fail
(src/app/camera/page.tsx lines 74-79).  Returns the pair of landmarks when the
index qualifies. -/
def lookupPair (template live : List Landmark) (i : ℕ) : Option (Landmark × Landmark) :=
  match template.get? i, live.get? i with
  | some t, some l =>
    let tVis := visVal t
    let lVis := visVal l
    if tVis < 0.5 ∨ lVis < 0.5 then none else some (t, l)
  | _, _ => none

/-- The distance added for one qualifying index: the live point is mapped into
letterbox-box coordinates and the Euclidean distance to the template point is
taken (src/app/camera/page.tsx lines 80-84). -/
noncomputable def pairDist (box : Box) (p : Landmark × Landmark) : ℝ :=
  let t := p.1
  let l := p.2
  let lx := (l.x * CAM_W - box.x) / box.w
  let ly := (l.y * CAM_H - box.y) / box.h
  let dx := t.x - lx
  let dy := t.y - ly
  Real.sqrt ((dx * dx + dy * dy : ℚ))

/-- One iteration of the scoring loop, accumulating `(total, count)`
(src/app/camera/page.tsx lines 74-86). -/
noncomputable def scoreStep (box : Box) (template live : List Landmark)
    (acc : ℝ × ℕ) (i : ℕ) : ℝ × ℕ :=
  match lookupPair template live i with
  | none => acc
  | some p => (acc.1 + pairDist box p, acc.2 + 1)

/-- `computeMatchScore` (src/app/camera/page.tsx lines 52-91, identical in
src/unnamed/part_003 lines 48-87): 0 on a null skeleton, 0 when fewer than
`MIN_VISIBLE_LANDMARKS` indices qualify, otherwise
`Math.round(100 * (1 - Math.min(1, avgDistance / 0.42)))`. -/
noncomputable def computeMatchScore (template live : PoseLandmarks)
    (templateImageSize : Option ImageSize) : ℤ :=
  match template, live with
  | some tpl, some lv =>
    let box := scoringLetterbox CAM_W CAM_H templateImageSize
    let r := KEY_LANDMARK_INDICES.foldl (scoreStep box tpl lv) (0, 0)
    let total := r.1
    let count := r.2
    if count < MIN_VISIBLE_LANDMARKS then 0
    else
      let avgDistance := total / (count : ℝ)
      let normalized := min 1 (avgDistance / (0.42 : ℝ))
      round ((100 : ℝ) * (1 - normalized))
  | _, _ => 0

/-- The list of qualifying template/live landmark pairs, in key-index order. -/
def qualifyingPairs (template live : List Landmark) : List (Landmark × Landmark) :=
  KEY_LANDMARK_INDICES.filterMap (lookupPair template live)

/-- Modelled from the spec: the mean over qualifying indices of the Euclidean
distance between the template point `(x, y)` and the live point mapped into
letterbox-box coordinates `((x·Cw − boxX)/boxW, (y·Ch − boxY)/boxH)` with
`Cw = 640`, `Ch = 480`. -/
noncomputable def specMeanDistance (template live : List Landmark)
    (templateImageSize : Option ImageSize) : ℝ :=
  let box := letterboxSpec CAM_W CAM_H templateImageSize
  let ds := (qualifyingPairs template live).map (fun p =>
    Real.sqrt (((p.1.x : ℝ) - ((p.2.x : ℝ) * (CAM_W : ℝ) - (box.x : ℝ)) / (box.w : ℝ)) ^ 2 +
               ((p.1.y : ℝ) - ((p.2.y : ℝ) * (CAM_H : ℝ) - (box.y : ℝ)) / (box.h : ℝ)) ^ 2))
  ds.sum / (ds.length : ℝ)

lemma pairDist_eq_spec (box : Box) (p : Landmark × Landmark) :
    pairDist box p =
      Real.sqrt (((p.1.x : ℝ) - ((p.2.x : ℝ) * (CAM_W : ℝ) - (box.x : ℝ)) / (box.w : ℝ)) ^ 2 +
                 ((p.1.y : ℝ) - ((p.2.y : ℝ) * (CAM_H : ℝ) - (box.y : ℝ)) / (box.h : ℝ)) ^ 2) := by
  simp only [pairDist]
  congr 1
  push_cast
  ring

lemma foldl_scoreStep (box : Box) (template live : List Landmark)
    (l : List ℕ) (a : ℝ) (n : ℕ) :
    l.foldl (scoreStep box template live) (a, n) =
      (a + ((l.filterMap (lookupPair template live)).map (pairDist box)).sum,
       n + (l.filterMap (lookupPair template live)).length) := by
  induction l generalizing a n with
  | nil => simp
  | cons i is ih =>
    rw [List.foldl_cons, List.filterMap_cons]
    cases h : lookupPair template live i with
    | none =>
      rw [show scoreStep box template live (a, n) i = (a, n) by
        simp [scoreStep, h]]
      simp [ih]
    | some p =>
      rw [show scoreStep box template live (a, n) i = (a + pairDist box p, n + 1) by
        simp [scoreStep, h]]
      rw [ih]
      simp only [List.map_cons, List.sum_cons, List.length_cons, Prod.mk.injEq]
      constructor
      · ring
      · omega

/-- C1: whenever at least `MIN_VISIBLE_LANDMARKS = 5` of the 10 key landmark
indices qualify (present in both skeletons with visibility ≥ 0.5 on both
sides), `computeMatchScore` returns `round(100 · (1 − min(1, d/0.42)))` where
`d` is the mean letterbox-space Euclidean distance over those indices. -/
theorem computeMatchScore_formula (tpl lv : List Landmark)
    (templateImageSize : Option ImageSize)
    (h5 : MIN_VISIBLE_LANDMARKS ≤ (qualifyingPairs tpl lv).length) :
    computeMatchScore (some tpl) (some lv) templateImageSize =
      round ((100 : ℝ) *
        (1 - min 1 (specMeanDistance tpl lv templateImageSize / (0.42 : ℝ)))) := by
  have hlen : ¬ ((List.filterMap (lookupPair tpl lv) KEY_LANDMARK_INDICES).length
      < MIN_VISIBLE_LANDMARKS) := by
    simp only [qualifyingPairs] at h5
    omega
  have hfun : pairDist (scoringLetterbox CAM_W CAM_H templateImageSize) = fun p =>
      Real.sqrt (((p.1.x : ℝ) -
          ((p.2.x : ℝ) * (CAM_W : ℝ) - ((letterboxSpec CAM_W CAM_H templateImageSize).x : ℝ)) /
            ((letterboxSpec CAM_W CAM_H templateImageSize).w : ℝ)) ^ 2 +
        ((p.1.y : ℝ) -
          ((p.2.y : ℝ) * (CAM_H : ℝ) - ((letterboxSpec CAM_W CAM_H templateImageSize).y : ℝ)) /
            ((letterboxSpec CAM_W CAM_H templateImageSize).h : ℝ)) ^ 2) :=
    funext fun p => pairDist_eq_spec _ p
  simp only [computeMatchScore, foldl_scoreStep, specMeanDistance,
    qualifyingPairs, List.length_map, hfun, zero_add]
  rw [if_neg hlen]

/-- A concrete landmark used for witnesses: centered, no visibility field. -/
def wLm : Landmark := { x := 1/2, y := 1/2 }

/-- A concrete 27-landmark skeleton used for witnesses. -/
def wSkel : List Landmark := List.replicate 27 wLm

lemma wSkel_get (i : ℕ) (hi : i < 27) : wSkel.get? i = some wLm := by
  rw [wSkel, List.get?_eq_getElem?, List.getElem?_replicate_of_lt hi]

lemma lookupPair_wSkel (i : ℕ) (hi : i < 27) :
    lookupPair wSkel wSkel i = some (wLm, wLm) := by
  have hv : visVal wLm = 1 := rfl
  simp only [lookupPair, wSkel_get i hi, hv]
  rw [if_neg (by norm_num)]

lemma qualifyingPairs_wSkel :
    qualifyingPairs wSkel wSkel = List.replicate 10 (wLm, wLm) := by
  simp only [qualifyingPairs, KEY_LANDMARK_INDICES]
  rw [List.filterMap_cons, lookupPair_wSkel 11 (by norm_num),
    List.filterMap_cons, lookupPair_wSkel 12 (by norm_num),
    List.filterMap_cons, lookupPair_wSkel 13 (by norm_num),
    List.filterMap_cons, lookupPair_wSkel 14 (by norm_num),
    List.filterMap_cons, lookupPair_wSkel 15 (by norm_num),
    List.filterMap_cons, lookupPair_wSkel 16 (by norm_num),
    List.filterMap_cons, lookupPair_wSkel 23 (by norm_num),
    List.filterMap_cons, lookupPair_wSkel 24 (by norm_num),
    List.filterMap_cons, lookupPair_wSkel 25 (by norm_num),
    List.filterMap_cons, lookupPair_wSkel 26 (by norm_num)]
  rfl

/-- Witness for C1: two identical full-visibility skeletons with no template
image size; all 10 key indices qualify. -/
theorem computeMatchScore_formula_witness :
    MIN_VISIBLE_LANDMARKS ≤ (qualifyingPairs wSkel wSkel).length ∧
    computeMatchScore (some wSkel) (some wSkel) none =
      round ((100 : ℝ) * (1 - min 1 (specMeanDistance wSkel wSkel none / (0.42 : ℝ)))) :=
  ⟨by rw [qualifyingPairs_wSkel]; norm_num [MIN_VISIBLE_LANDMARKS],
   computeMatchScore_formula wSkel wSkel none
     (by rw [qualifyingPairs_wSkel]; norm_num [MIN_VISIBLE_LANDMARKS])⟩

lemma lookupPair_nil_left (lv : List Landmark) (i : ℕ) :
    lookupPair [] lv i = none := by
  simp [lookupPair]

lemma lookupPair_nil_right (tpl : List Landmark) (i : ℕ) :
    lookupPair tpl [] i = none := by
  unfold lookupPair
  cases tpl.get? i <;> simp

lemma qualifyingPairs_nil_left (lv : List Landmark) :
    qualifyingPairs [] lv = [] := by
  simp [qualifyingPairs, lookupPair_nil_left]

lemma qualifyingPairs_nil_right (tpl : List Landmark) :
    qualifyingPairs tpl [] = [] := by
  simp [qualifyingPairs, lookupPair_nil_right]

lemma computeMatchScore_of_count_lt (tpl lv : List Landmark)
    (templateImageSize : Option ImageSize)
    (h : (qualifyingPairs tpl lv).length < MIN_VISIBLE_LANDMARKS) :
    computeMatchScore (some tpl) (some lv) templateImageSize = 0 := by
  have hlen : ((List.filterMap (lookupPair tpl lv) KEY_LANDMARK_INDICES).length
      < MIN_VISIBLE_LANDMARKS) := by
    simp only [qualifyingPairs] at h
    omega
  simp only [computeMatchScore, foldl_scoreStep, zero_add]
  rw [if_pos hlen]

/-- C3: `computeMatchScore` returns 0 when either skeleton is null or empty,
and whenever fewer than 5 of the 10 key indices are mutually visible,
regardless of the positions of the landmarks that are visible. -/
theorem computeMatchScore_zero_floor (template live : PoseLandmarks)
    (templateImageSize : Option ImageSize) (tpl lv : List Landmark)
    (h : (qualifyingPairs tpl lv).length < MIN_VISIBLE_LANDMARKS) :
    computeMatchScore none live templateImageSize = 0 ∧
    computeMatchScore template none templateImageSize = 0 ∧
    computeMatchScore (some []) live templateImageSize = 0 ∧
    computeMatchScore template (some []) templateImageSize = 0 ∧
    computeMatchScore (some tpl) (some lv) templateImageSize = 0 := by
  refine ⟨?_, ?_, ?_, ?_, computeMatchScore_of_count_lt tpl lv templateImageSize h⟩
  · cases live <;> rfl
  · cases template <;> rfl
  · cases live with
    | none => rfl
    | some lv2 =>
      exact computeMatchScore_of_count_lt [] lv2 templateImageSize
        (by rw [qualifyingPairs_nil_left]; norm_num [MIN_VISIBLE_LANDMARKS])
  · cases template with
    | none => rfl
    | some tpl2 =>
      exact computeMatchScore_of_count_lt tpl2 [] templateImageSize
        (by rw [qualifyingPairs_nil_right]; norm_num [MIN_VISIBLE_LANDMARKS])

/-- Witness for C3: empty skeletons give zero qualifying indices. -/
theorem computeMatchScore_zero_floor_witness :
    (qualifyingPairs [] []).length < MIN_VISIBLE_LANDMARKS ∧
    computeMatchScore (some []) (some []) none = 0 :=
  ⟨by rw [qualifyingPairs_nil_left]; norm_num [MIN_VISIBLE_LANDMARKS],
   (computeMatchScore_zero_floor (some []) (some []) none [] []
     (by rw [qualifyingPairs_nil_left]; norm_num [MIN_VISIBLE_LANDMARKS])).2.2.2.2⟩

/-- C10: a key landmark present in both skeletons whose `visibility` field is
absent is treated as fully visible on both sides: it passes the ≥ 0.5 filter,
appears among the qualifying pairs that the distance average runs over, and
contributes to the count compared against the 5-point minimum. -/
theorem missing_visibility_defaults_visible (tpl lv : List Landmark) (i : ℕ)
    (t l : Landmark) (hi : i ∈ KEY_LANDMARK_INDICES)
    (ht : tpl.get? i = some t) (hl : lv.get? i = some l)
    (hvt : t.visibility = none) (hvl : l.visibility = none) :
    visVal t = 1 ∧ visVal l = 1 ∧
    lookupPair tpl lv i = some (t, l) ∧
    (t, l) ∈ qualifyingPairs tpl lv ∧
    (∀ box : Box,
      (KEY_LANDMARK_INDICES.foldl (scoreStep box tpl lv) (0, 0)).2 =
        (qualifyingPairs tpl lv).length ∧
      1 ≤ (qualifyingPairs tpl lv).length) := by
  have hvis : visVal t = 1 ∧ visVal l = 1 := by
    constructor <;> simp [visVal, hvt, hvl]
  have hlp : lookupPair tpl lv i = some (t, l) := by
    simp only [lookupPair, ht, hl]
    rw [if_neg (by rw [hvis.1, hvis.2]; norm_num)]
  have hmem : (t, l) ∈ qualifyingPairs tpl lv :=
    List.mem_filterMap.mpr ⟨i, hi, hlp⟩
  refine ⟨hvis.1, hvis.2, hlp, hmem, fun box => ⟨?_, List.length_pos_of_mem hmem⟩⟩
  rw [foldl_scoreStep]
  simp [qualifyingPairs]

/-- Witness for C10: index 11 of the witness skeleton has no visibility field
and qualifies. -/
theorem missing_visibility_defaults_visible_witness :
    (11 ∈ KEY_LANDMARK_INDICES) ∧
    wSkel.get? 11 = some wLm ∧ wLm.visibility = none ∧
    visVal wLm = 1 ∧
    lookupPair wSkel wSkel 11 = some (wLm, wLm) ∧
    (wLm, wLm) ∈ qualifyingPairs wSkel wSkel :=
  have h : 11 ∈ KEY_LANDMARK_INDICES := by decide
  have hg : wSkel.get? 11 = some wLm := wSkel_get 11 (by norm_num)
  have hv : wLm.visibility = none := rfl
  have main := missing_visibility_defaults_visible wSkel wSkel 11 wLm wLm h hg hg hv hv
  ⟨h, hg, hv, main.1, main.2.2.1, main.2.2.2.1⟩

-- ---- Score smoothing (src/app/camera/page.tsx lines 240-246, src/unnamed/part_003 lines 310-316) ----

/-- `getSmoothedScore`: EMA with `alpha = 0.2`; returns the rounded smoothed
score and the new accumulator value (`previousScoreRef.current`). -/
def getSmoothedScore (rawScore previousScore : ℚ) : ℤ × ℚ :=
  let alpha : ℚ := 0.2
  let smoothed := alpha * rawScore + (1 - alpha) * previousScore
  (round smoothed, smoothed)

/-- The smoothing accumulator after `n` ticks of constant raw score `r`
starting from accumulator value `s0`. -/
def smoothIter (r s0 : ℚ) : ℕ → ℚ
  | 0 => s0
  | n + 1 => (getSmoothedScore r (smoothIter r s0 n)).2

lemma smoothIter_succ (r s0 : ℚ) (n : ℕ) :
    smoothIter r s0 (n + 1) = (1/5) * r + (4/5) * smoothIter r s0 n := by
  show (getSmoothedScore r (smoothIter r s0 n)).2 = _
  simp only [getSmoothedScore]
  norm_num

lemma smoothIter_gap (r s0 : ℚ) (n : ℕ) :
    r - smoothIter r s0 n = (4/5) ^ n * (r - s0) := by
  induction n with
  | zero => simp [smoothIter]
  | succ n ih =>
    rw [smoothIter_succ, pow_succ]
    linear_combination (4/5 : ℚ) * ih

/-- C6: the smoothing update is `smoothed = 0.2·raw + 0.8·previous`; for a
constant raw score `r`, from `s0 ≤ r` the iterates are monotone
non-decreasing and never exceed `r`, from `s0 ≥ r` they are antitone and
never drop below `r` (no overshoot in either direction), and in all cases
they converge to `r`. -/
theorem smoothing_monotone_convergence (r s0 : ℚ) :
    (∀ raw prev : ℚ, (getSmoothedScore raw prev).2 = (0.2 : ℚ) * raw + (0.8 : ℚ) * prev) ∧
    (s0 ≤ r → (Monotone fun n => smoothIter r s0 n) ∧ ∀ n, smoothIter r s0 n ≤ r) ∧
    (r ≤ s0 → (Antitone fun n => smoothIter r s0 n) ∧ ∀ n, r ≤ smoothIter r s0 n) ∧
    (∀ ε : ℚ, 0 < ε → ∃ N, ∀ n, N ≤ n → |smoothIter r s0 n - r| < ε) := by
  have hstep : ∀ raw prev : ℚ,
      (getSmoothedScore raw prev).2 = (0.2 : ℚ) * raw + (0.8 : ℚ) * prev := by
    intro raw prev
    simp only [getSmoothedScore]
    norm_num
  have hle : ∀ n, s0 ≤ r → smoothIter r s0 n ≤ r := by
    intro n h
    have := smoothIter_gap r s0 n
    nlinarith [pow_nonneg (by norm_num : (0:ℚ) ≤ 4/5) n]
  have hge : ∀ n, r ≤ s0 → r ≤ smoothIter r s0 n := by
    intro n h
    have := smoothIter_gap r s0 n
    nlinarith [pow_nonneg (by norm_num : (0:ℚ) ≤ 4/5) n]
  refine ⟨hstep, fun h => ⟨monotone_nat_of_le_succ fun n => ?_, fun n => hle n h⟩,
    fun h => ⟨antitone_nat_of_succ_le fun n => ?_, fun n => hge n h⟩, ?_⟩
  · have := hle n h
    rw [smoothIter_succ]
    linarith
  · have := hge n h
    rw [smoothIter_succ]
    linarith
  · intro ε hε
    obtain ⟨N, hN⟩ := exists_pow_lt_of_lt_one
      (div_pos hε (by positivity : (0:ℚ) < |s0 - r| + 1)) (by norm_num : (4:ℚ)/5 < 1)
    refine ⟨N, fun n hn => ?_⟩
    have hgap : |smoothIter r s0 n - r| = (4/5) ^ n * |s0 - r| := by
      have := smoothIter_gap r s0 n
      have h2 : smoothIter r s0 n - r = (4/5) ^ n * (s0 - r) := by linarith
      rw [h2, abs_mul, abs_pow, abs_of_nonneg (by norm_num : (0:ℚ) ≤ 4/5)]
    have hpowle : ((4:ℚ)/5) ^ n ≤ ((4:ℚ)/5) ^ N :=
      pow_le_pow_of_le_one (by norm_num) (by norm_num) hn
    have habs : (0:ℚ) ≤ |s0 - r| := abs_nonneg _
    calc |smoothIter r s0 n - r| = (4/5) ^ n * |s0 - r| := hgap
      _ ≤ (4/5) ^ N * (|s0 - r| + 1) := by
          have := pow_nonneg (by norm_num : (0:ℚ) ≤ 4/5) N
          nlinarith
      _ < ε / (|s0 - r| + 1) * (|s0 - r| + 1) := by
          have : (0:ℚ) < |s0 - r| + 1 := by positivity
          exact mul_lt_mul_of_pos_right hN this
      _ = ε := by
          field_simp

/-- Witness for C6: constant raw score 80 from accumulator 0. -/
theorem smoothing_monotone_convergence_witness :
    ((0:ℚ) ≤ 80 ∧ smoothIter 80 0 3 ≤ 80) ∧ (getSmoothedScore 80 0).2 = (0.2:ℚ) * 80 + 0.8 * 0 :=
  ⟨⟨by norm_num, ((smoothing_monotone_convergence 80 0).2.1 (by norm_num)).2 3⟩,
   (smoothing_monotone_convergence 80 0).1 80 0⟩


-- ---- Guidance advisor (src/app/camera/page.tsx lines 36-49 and 534-553) ----

/-- The shoulder-to-shoulder distance `Math.sqrt(dx*dx + dy*dy)` computed by
`getGuidancePrompt` (src/app/camera/page.tsx lines 42-43). -/
noncomputable def shoulderWidth (l r : Landmark) : ℝ :=
  let dx := r.x - l.x
  let dy := r.y - l.y
  Real.sqrt ((dx * dx + dy * dy : ℚ))

/-- `getGuidancePrompt` (src/app/camera/page.tsx lines 36-49, identical in
src/unnamed/part_003 lines 32-45): null when the live skeleton is null/empty
or a shoulder landmark (index 11 or 12) is missing; otherwise the first
matching rule of the centering/distance chain wins. -/
noncomputable def getGuidancePrompt (live : PoseLandmarks) : Option String :=
  match live with
  | none => none
  | some lv =>
    if lv.length = 0 then none
    else
      match lv.get? 11, lv.get? 12 with
      | some l, some r =>
        let centerX := (l.x + r.x) / 2
        if centerX < CENTER_LEFT then some "Move left"
        else if centerX > CENTER_RIGHT then some "Move right"
        else if shoulderWidth l r > (SHOULDER_WIDTH_TOO_BIG : ℝ) then some "Back up"
        else if shoulderWidth l r < (SHOULDER_WIDTH_TOO_SMALL : ℝ) then some "Come closer"
        else none
      | _, _ => none

/-- The guidance value produced by the scoring effect
(src/app/camera/page.tsx lines 534-553): suppressed at or above the success
threshold, and only produced when the smoothed score is below
`GUIDANCE_MAX_MATCH` with a live pose present. -/
noncomputable def displayedGuidance (smoothedScore : ℤ) (livePose : PoseLandmarks) :
    Option String :=
  if SUCCESS_THRESHOLD ≤ smoothedScore then none
  else if smoothedScore < GUIDANCE_MAX_MATCH ∧ livePose.isSome = true then
    getGuidancePrompt livePose
  else none

/-- C7: guidance is null when the live skeleton is absent/empty or a shoulder
landmark is missing; the displayed guidance is suppressed whenever the
smoothed score is ≥ 50; otherwise the rules fire in order — centering
(`Move left`/`Move right`) before distance (`Back up`/`Come closer`) —
with the first match winning. -/
theorem guidance_rules (s : ℤ) (livePose : PoseLandmarks) (lv : List Landmark)
    (l r : Landmark) :
    getGuidancePrompt none = none ∧
    getGuidancePrompt (some []) = none ∧
    ((lv.get? 11 = none ∨ lv.get? 12 = none) → getGuidancePrompt (some lv) = none) ∧
    (GUIDANCE_MAX_MATCH ≤ s → displayedGuidance s livePose = none) ∧
    (lv.get? 11 = some l → lv.get? 12 = some r →
      (((l.x + r.x) / 2 < CENTER_LEFT →
          getGuidancePrompt (some lv) = some "Move left") ∧
       (¬ (l.x + r.x) / 2 < CENTER_LEFT → (l.x + r.x) / 2 > CENTER_RIGHT →
          getGuidancePrompt (some lv) = some "Move right") ∧
       (¬ (l.x + r.x) / 2 < CENTER_LEFT → ¬ (l.x + r.x) / 2 > CENTER_RIGHT →
          shoulderWidth l r > (SHOULDER_WIDTH_TOO_BIG : ℝ) →
          getGuidancePrompt (some lv) = some "Back up") ∧
       (¬ (l.x + r.x) / 2 < CENTER_LEFT → ¬ (l.x + r.x) / 2 > CENTER_RIGHT →
          ¬ shoulderWidth l r > (SHOULDER_WIDTH_TOO_BIG : ℝ) →
          shoulderWidth l r < (SHOULDER_WIDTH_TOO_SMALL : ℝ) →
          getGuidancePrompt (some lv) = some "Come closer") ∧
       (¬ (l.x + r.x) / 2 < CENTER_LEFT → ¬ (l.x + r.x) / 2 > CENTER_RIGHT →
          ¬ shoulderWidth l r > (SHOULDER_WIDTH_TOO_BIG : ℝ) →
          ¬ shoulderWidth l r < (SHOULDER_WIDTH_TOO_SMALL : ℝ) →
          getGuidancePrompt (some lv) = none))) := by
  refine ⟨rfl, by simp [getGuidancePrompt], ?_, ?_, ?_⟩
  · intro h
    simp only [List.get?_eq_getElem?] at h
    rcases h with h | h
    · cases h12 : lv[12]? <;> simp [getGuidancePrompt, h, h12]
    · cases h11 : lv[11]? <;> simp [getGuidancePrompt, h, h11]
  · intro h
    have h50 : (50 : ℤ) ≤ s := h
    by_cases h78 : SUCCESS_THRESHOLD ≤ s
    · simp [displayedGuidance, h78]
    · have hno : ¬ (s < GUIDANCE_MAX_MATCH ∧ livePose.isSome = true) := by
        rintro ⟨hlt, -⟩
        have : s < (50 : ℤ) := hlt
        omega
      simp [displayedGuidance, h78, hno]
  · intro ht hr
    have hpos : 11 < lv.length := by
      rcases List.get?_eq_some.mp ht with ⟨hlt, -⟩
      exact hlt
    have hlen0 : ¬ lv.length = 0 := by omega
    simp only [getGuidancePrompt, ht, hr, if_neg hlen0]
    refine ⟨fun h1 => ?_, fun h1 h2 => ?_, fun h1 h2 h3 => ?_,
      fun h1 h2 h3 h4 => ?_, fun h1 h2 h3 h4 => ?_⟩
    · rw [if_pos h1]
    · rw [if_neg h1, if_pos h2]
    · rw [if_neg h1, if_neg h2, if_pos h3]
    · rw [if_neg h1, if_neg h2, if_neg h3, if_pos h4]
    · rw [if_neg h1, if_neg h2, if_neg h3, if_neg h4]

/-- Left-shoulder landmark used in the guidance witness. -/
def wL : Landmark := { x := 0.05, y := 0.5 }

/-- Right-shoulder landmark used in the guidance witness. -/
def wR : Landmark := { x := 0.55, y := 0.5 }

/-- A 13-landmark skeleton whose shoulder midpoint is 0.30 (< 0.38) while the
shoulder distance is 0.50 (> 0.42): the centering rule must win. -/
def wGuideSkel : List Landmark :=
  [wLm, wLm, wLm, wLm, wLm, wLm, wLm, wLm, wLm, wLm, wLm, wL, wR]

/-- Witness for C7: at smoothed score 50 guidance is suppressed, and on the
guidance skeleton the centering rule fires before the distance rule. -/
theorem guidance_rules_witness :
    (GUIDANCE_MAX_MATCH ≤ (50 : ℤ)) ∧
    displayedGuidance 50 (some wGuideSkel) = none ∧
    ((wL.x + wR.x) / 2 < CENTER_LEFT) ∧
    getGuidancePrompt (some wGuideSkel) = some "Move left" := by
  have h50 : GUIDANCE_MAX_MATCH ≤ (50 : ℤ) := by norm_num [GUIDANCE_MAX_MATCH]
  have hc : (wL.x + wR.x) / 2 < CENTER_LEFT := by norm_num [wL, wR, CENTER_LEFT]
  have ht : wGuideSkel.get? 11 = some wL := rfl
  have hr : wGuideSkel.get? 12 = some wR := rfl
  have main := guidance_rules 50 (some wGuideSkel) wGuideSkel wL wR
  exact ⟨h50, main.2.2.2.1 h50, hc, (main.2.2.2.2 ht hr).1 hc⟩

-- ---- Auto-capture effect (src/unnamed/part_003 lines 624-641) ----

/-- The mutable state read and written by the auto-capture effect:
`autoHoldStartRef`, the `countdown` state, and `isCapturingRef`. -/
structure AutoState where
  autoHoldStart : Option ℚ
  countdown : Option ℕ
  isCapturing : Bool
deriving DecidableEq, Repr

/-- The state on entering the camera step: no hold, no countdown, no capture
in flight. -/
def initialAutoState : AutoState :=
  { autoHoldStart := none, countdown := none, isCapturing := false }

/-- One run of the auto-capture effect (src/unnamed/part_003 lines 624-641)
at wall-clock time `now` with the current smoothed `matchScore`: when
disabled, clear hold and countdown; when the score is ≥ 80, record the hold
start on the first qualifying tick and start the 3-2-1 countdown once
3000 ms have elapsed (only if no countdown is displayed and no capture is in
flight); otherwise clear hold and countdown. -/
def autoTick (autoCaptureEnabled : Bool) (matchScore : ℤ) (now : ℚ)
    (s : AutoState) : AutoState :=
  if autoCaptureEnabled = false then
    { s with autoHoldStart := none, countdown := none }
  else if 80 ≤ matchScore then
    let start := s.autoHoldStart.getD now
    let elapsed := now - start
    if 3000 ≤ elapsed ∧ s.countdown = none ∧ s.isCapturing = false then
      { s with autoHoldStart := some start, countdown := some 3 }
    else
      { s with autoHoldStart := some start }
  else
    { s with autoHoldStart := none, countdown := none }

/-- Fold the auto-capture effect over a sequence of `(time, score)` ticks. -/
def runTicks (autoCaptureEnabled : Bool) (ticks : List (ℚ × ℤ))
    (s : AutoState) : AutoState :=
  ticks.foldl (fun st p => autoTick autoCaptureEnabled p.2 p.1 st) s

lemma autoTick_isCapturing (e : Bool) (sc : ℤ) (t : ℚ) (s : AutoState) :
    (autoTick e sc t s).isCapturing = s.isCapturing := by
  simp only [autoTick]
  split
  · rfl
  · split
    · split <;> rfl
    · rfl

lemma runTicks_isCapturing (e : Bool) (ticks : List (ℚ × ℤ)) (s : AutoState) :
    (runTicks e ticks s).isCapturing = s.isCapturing := by
  induction ticks generalizing s with
  | nil => rfl
  | cons p ps ih =>
    show (runTicks e ps (autoTick e p.2 p.1 s)).isCapturing = _
    rw [ih, autoTick_isCapturing]

lemma runTicks_append (e : Bool) (l1 l2 : List (ℚ × ℤ)) (s : AutoState) :
    runTicks e (l1 ++ l2) s = runTicks e l2 (runTicks e l1 s) := by
  unfold runTicks
  exact List.foldl_append _ _ _ _

lemma runTicks_cons (e : Bool) (p : ℚ × ℤ) (ps : List (ℚ × ℤ)) (s : AutoState) :
    runTicks e (p :: ps) s = runTicks e ps (autoTick e p.2 p.1 s) :=
  rfl

lemma autoTick_dip (sc : ℤ) (hsc : sc < 80) (t : ℚ) (s : AutoState) :
    autoTick true sc t s = { s with autoHoldStart := none, countdown := none } := by
  unfold autoTick
  rw [if_neg (by simp), if_neg (by omega)]

/-- Invariant for a run of ticks whose scores all stay ≥ 80, starting from a
state already holding since `t0` with no capture in flight: the hold start is
kept, and the countdown ends at 3 exactly when it already was 3 or some tick
lies at least 3000 ms past `t0`. -/
lemma runTicks_hold (t0 : ℚ) (ticks : List (ℚ × ℤ))
    (h80 : ∀ p ∈ ticks, 80 ≤ p.2) (s : AutoState)
    (hs : s.autoHoldStart = some t0) (hc : s.isCapturing = false)
    (hcd : s.countdown = none ∨ s.countdown = some 3) :
    (runTicks true ticks s).autoHoldStart = some t0 ∧
    ((runTicks true ticks s).countdown = none ∨
      (runTicks true ticks s).countdown = some 3) ∧
    ((runTicks true ticks s).countdown = some 3 ↔
      (s.countdown = some 3 ∨ ∃ p ∈ ticks, 3000 ≤ p.1 - t0)) := by
  induction ticks generalizing s with
  | nil =>
    refine ⟨hs, hcd, ?_⟩
    simp only [runTicks, List.foldl_nil, List.not_mem_nil]
    tauto
  | cons p ps ih =>
    have hstep : autoTick true p.2 p.1 s =
        (if 3000 ≤ p.1 - t0 ∧ s.countdown = none ∧ s.isCapturing = false then
          { s with autoHoldStart := some t0, countdown := some 3 }
        else
          { s with autoHoldStart := some t0 }) := by
      unfold autoTick
      rw [if_neg (by simp), if_pos (h80 p (List.mem_cons_self p ps))]
      rw [hs]
      rfl
    rw [runTicks_cons, hstep]
    by_cases hfire : 3000 ≤ p.1 - t0 ∧ s.countdown = none ∧ s.isCapturing = false
    · rw [if_pos hfire]
      obtain ⟨ha, hb, hiff⟩ := ih (fun q hq => h80 q (List.mem_cons_of_mem p hq))
        { s with autoHoldStart := some t0, countdown := some 3 } rfl hc (Or.inr rfl)
      refine ⟨ha, hb, ?_⟩
      rw [hiff]
      constructor
      · intro _
        exact Or.inr ⟨p, List.mem_cons_self p ps, hfire.1⟩
      · intro _
        exact Or.inl rfl
    · rw [if_neg hfire]
      obtain ⟨ha, hb, hiff⟩ := ih (fun q hq => h80 q (List.mem_cons_of_mem p hq))
        { s with autoHoldStart := some t0 } rfl hc hcd
      refine ⟨ha, hb, ?_⟩
      rw [hiff]
      simp only [List.mem_cons]
      constructor
      · rintro (h3 | ⟨q, hq, hq3⟩)
        · exact Or.inl h3
        · exact Or.inr ⟨q, Or.inr hq, hq3⟩
      · rintro (h3 | ⟨q, hq | hq, hq3⟩)
        · exact Or.inl h3
        · rcases hcd with hn | h3cd
          · exfalso
            subst hq
            exact hfire ⟨hq3, hn, hc⟩
          · exact Or.inl h3cd
        · exact Or.inr ⟨q, hq, hq3⟩

/-- C4: with auto-capture enabled and no capture in flight, a run of ticks all
scoring ≥ 80 starts the 3-2-1 countdown exactly when some tick lies at least
3000 ms past the first qualifying tick (so a 2999 ms span starts no
countdown), and a single tick scoring below 80 resets the machine to its
initial state, so the hold restarts from zero and no countdown starts at the
original 3000 ms mark. -/
theorem autoCapture_hold_countdown (t0 : ℚ) (s0 : ℤ) (rest pre post : List (ℚ × ℤ))
    (dip : ℚ × ℤ) (h0 : 80 ≤ s0) (hrest : ∀ p ∈ rest, 80 ≤ p.2) (hdip : dip.2 < 80) :
    ((∃ p ∈ rest, 3000 ≤ p.1 - t0) →
      (runTicks true ((t0, s0) :: rest) initialAutoState).countdown = some 3) ∧
    ((∀ p ∈ rest, p.1 - t0 < 3000) →
      (runTicks true ((t0, s0) :: rest) initialAutoState).countdown = none) ∧
    (runTicks true (pre ++ dip :: post) initialAutoState =
      runTicks true post initialAutoState) := by
  have hfirst : autoTick true s0 t0 initialAutoState =
      { autoHoldStart := some t0, countdown := none, isCapturing := false } := by
    simp only [autoTick, initialAutoState, Option.getD_none]
    rw [if_neg (by simp), if_pos h0,
      if_neg (by rintro ⟨h3, -, -⟩; rw [sub_self] at h3; norm_num at h3)]
  have hrun := runTicks_hold t0 rest hrest
    { autoHoldStart := some t0, countdown := none, isCapturing := false }
    rfl rfl (Or.inl rfl)
  refine ⟨?_, ?_, ?_⟩
  · intro hex
    rw [runTicks_cons]
    show (runTicks true rest (autoTick true s0 t0 initialAutoState)).countdown = some 3
    rw [hfirst]
    exact hrun.2.2.mpr (Or.inr hex)
  · intro hall
    rw [runTicks_cons]
    show (runTicks true rest (autoTick true s0 t0 initialAutoState)).countdown = none
    rw [hfirst]
    rcases hrun.2.1 with hn | h3
    · exact hn
    · exfalso
      rcases hrun.2.2.mp h3 with hcd | ⟨p, hp, hp3⟩
      · exact Option.noConfusion hcd
      · have := hall p hp
        linarith
  · rw [runTicks_append, runTicks_cons, autoTick_dip dip.2 hdip dip.1]
    have hcap : (runTicks true pre initialAutoState).isCapturing = false :=
      runTicks_isCapturing true pre initialAutoState
    congr 1
    simp [initialAutoState, runTicks_isCapturing]

/-- Witness for C4: score 85 held at times 0 ms and 3000 ms starts the
countdown, with a dip tick (2500 ms, score 70) available to the reset part. -/
theorem autoCapture_hold_countdown_witness :
    (80 ≤ (85 : ℤ)) ∧ (((2500 : ℚ), (70 : ℤ)).2 < 80) ∧
    (runTicks true [((0 : ℚ), (85 : ℤ)), (3000, 85)] initialAutoState).countdown = some 3 := by
  have main := autoCapture_hold_countdown 0 85 [((3000 : ℚ), (85 : ℤ))] [] [] (2500, 70)
    (by norm_num)
    (by
      intro p hp
      simp only [List.mem_singleton] at hp
      rw [hp]
      norm_num)
    (by norm_num)
  refine ⟨by norm_num, by norm_num, main.1 ⟨(3000, 85), ?_, by norm_num⟩⟩
  simp

-- ---- Capture (src/unnamed/part_003 lines 543-594) ----

/-- `'auto' | 'manual'`. -/
inductive CaptureType
  | auto
  | manual
deriving DecidableEq, Repr

/-- The video element's frame dimensions. -/
structure Video where
  videoWidth : ℚ
  videoHeight : ℚ
deriving DecidableEq, Repr

/-- The captured still: the source frame and the letterbox crop drawn into it
(`ctx.drawImage(video, sx, sy, sW, sH, boxX, boxY, boxW, boxH)`). -/
structure Photo where
  video : Video
  box : Box
deriving DecidableEq, Repr

/-- The capture-related state read and written by `performCapture`:
`isCapturingRef`, `hasCapturedRef`, the staged photo, capture type, and the
pending refs deferred until the user confirms. -/
structure CaptureState where
  isCapturing : Bool
  hasCaptured : Bool
  capturedPhoto : Option Photo
  lastCaptureType : Option CaptureType
  pendingPoseName : Option String
  pendingScore : Option ℤ
  pendingCaptureType : Option CaptureType
  showSuccessModal : Bool
deriving DecidableEq, Repr

/-- `performCapture` (src/unnamed/part_003 lines 543-594): no-op when a
capture is already in flight or the video is missing/zero-sized; otherwise
renders the letterboxed frame, sets the in-flight and has-captured flags, and
stages photo, pose name, score, and capture type for confirmation. -/
def performCapture (captureType : CaptureType) (video : Option Video)
    (templateImageSize : Option ImageSize) (matchScore : ℤ)
    (poseNameOverride : Option String) (s : CaptureState) : CaptureState :=
  if s.isCapturing = true then s
  else
    match video with
    | none => s
    | some v =>
      if v.videoWidth = 0 ∨ v.videoHeight = 0 then s
      else
        let box := captureLetterbox v.videoWidth v.videoHeight templateImageSize
        let photoDataUrl : Photo := { video := v, box := box }
        { isCapturing := true
          hasCaptured := true
          capturedPhoto := some photoDataUrl
          lastCaptureType := some captureType
          pendingPoseName := some (poseNameOverride.getD "Custom Pose")
          pendingScore := some matchScore
          pendingCaptureType := some captureType
          showSuccessModal := true }

/-- C5: while a capture is in flight (`isCapturingRef` set, covering the
Capturing and Confirming phases), `performCapture` — auto or manual — is a
no-op: the state is returned unchanged, so no new artifact is produced and the
staged photo, pending pose name, score, and capture type are untouched. -/
theorem performCapture_reentrant_noop (captureType : CaptureType)
    (video : Option Video) (templateImageSize : Option ImageSize)
    (matchScore : ℤ) (poseNameOverride : Option String) (s : CaptureState)
    (h : s.isCapturing = true) :
    performCapture captureType video templateImageSize matchScore poseNameOverride s = s ∧
    (performCapture captureType video templateImageSize matchScore poseNameOverride
      s).capturedPhoto = s.capturedPhoto ∧
    (performCapture captureType video templateImageSize matchScore poseNameOverride
      s).pendingPoseName = s.pendingPoseName ∧
    (performCapture captureType video templateImageSize matchScore poseNameOverride
      s).pendingScore = s.pendingScore ∧
    (performCapture captureType video templateImageSize matchScore poseNameOverride
      s).pendingCaptureType = s.pendingCaptureType := by
  have heq : performCapture captureType video templateImageSize matchScore
      poseNameOverride s = s := by
    simp [performCapture, h]
  exact ⟨heq, by rw [heq], by rw [heq], by rw [heq], by rw [heq]⟩

/-- A concrete in-flight capture state used in the C5 witness. -/
def wCaptureState : CaptureState :=
  { isCapturing := true
    hasCaptured := true
    capturedPhoto := none
    lastCaptureType := some CaptureType.auto
    pendingPoseName := some "Pose"
    pendingScore := some 90
    pendingCaptureType := some CaptureType.auto
    showSuccessModal := true }

/-- Witness for C5: a manual trigger while a capture is in flight changes
nothing. -/
theorem performCapture_reentrant_noop_witness :
    wCaptureState.isCapturing = true ∧
    performCapture CaptureType.manual (some ⟨640, 480⟩) none 90 none wCaptureState =
      wCaptureState :=
  ⟨rfl, (performCapture_reentrant_noop CaptureType.manual (some ⟨640, 480⟩) none 90 none
    wCaptureState rfl).1⟩

-- ---- Detector result routing (src/app/camera/page.tsx lines 313-323, src/unnamed/part_003 lines 397-415) ----

/-- `modeRef`: `'template' | 'live'`. -/
inductive Mode
  | template
  | live
deriving DecidableEq, Repr

/-- The state read and written by the shared detector callback: the mode flag
and the two skeleton slots. -/
structure DetectorState where
  mode : Mode
  templatePose : PoseLandmarks
  livePose : PoseLandmarks
  extracting : Bool
deriving Repr

/-- `handleResults` (src/app/camera/page.tsx lines 313-323, identical routing
in src/unnamed/part_003 lines 397-415): routes the delivered landmark set by
the mode flag read at call time; a template-mode result with landmarks flips
the flag to live. -/
def handleResults (poseLandmarks : PoseLandmarks) (s : DetectorState) : DetectorState :=
  match s.mode with
  | Mode.template =>
    { s with
      templatePose := poseLandmarks
      extracting := false
      mode := if poseLandmarks.isSome then Mode.live else Mode.template }
  | Mode.live =>
    { s with livePose := poseLandmarks }

/-- C8: a detector result delivered while the mode flag reads `live` never
writes the template slot, and one delivered while the flag reads `template`
never writes the live slot. -/
theorem handleResults_mode_isolation (poseLandmarks : PoseLandmarks)
    (s : DetectorState) :
    (s.mode = Mode.live →
      (handleResults poseLandmarks s).templatePose = s.templatePose) ∧
    (s.mode = Mode.template →
      (handleResults poseLandmarks s).livePose = s.livePose) := by
  constructor <;> intro h <;> simp [handleResults, h]

/-- Witness for C8: a live-mode delivery leaves the template slot null. -/
theorem handleResults_mode_isolation_witness :
    (DetectorState.mode ⟨Mode.live, none, none, false⟩ = Mode.live) ∧
    (handleResults (some wSkel) ⟨Mode.live, none, none, false⟩).templatePose = none :=
  ⟨rfl, (handleResults_mode_isolation (some wSkel) ⟨Mode.live, none, none, false⟩).1 rfl⟩

-- ---- Session reset (src/unnamed/part_003 lines 739-764, src/app/camera/page.tsx lines 489-491 and 697-704) ----

/-- `'upload' | 'camera'`. -/
inductive Step
  | upload
  | camera
deriving DecidableEq, Repr

/-- Manual-capture-variant session state touched by `handleRetakePhoto` and
`handleBack` (src/app/camera/page.tsx). -/
structure ManualSession where
  capturedPhotoDataUrl : Option Photo
  previousScore : ℚ
  mode : Mode
  step : Step
deriving Repr

/-- `handleRetakePhoto` (src/app/camera/page.tsx lines 489-491): clears only
the captured photo. -/
def handleRetakePhoto (s : ManualSession) : ManualSession :=
  { s with capturedPhotoDataUrl := none }

/-- `handleBack` in the manual-capture variant
(src/app/camera/page.tsx lines 697-704): resets the mode flag and steps back;
`router.push` is outside the model. -/
def handleBackManual (s : ManualSession) : ManualSession :=
  let s1 := { s with mode := Mode.template }
  if s1.step = Step.camera then { s1 with step := Step.upload } else s1

/-- Auto-capture-variant session state touched by `handleResetCapture`
(src/unnamed/part_003 lines 739-753). -/
structure AutoSession where
  hasCaptured : Bool
  isCapturing : Bool
  countdown : Option ℕ
  showSuccessModal : Bool
  capturedPhoto : Option Photo
  previousScore : ℚ
  matchScore : ℤ
  lastCaptureType : Option CaptureType
  saveInFlight : Bool
  pendingPoseName : Option String
  pendingScore : Option ℤ
  pendingCaptureType : Option CaptureType
  mode : Mode
  step : Step
deriving Repr

/-- `handleResetCapture` (src/unnamed/part_003 lines 739-753): clears all
capture/session state, including `previousScoreRef.current = 0`. -/
def handleResetCapture (s : AutoSession) : AutoSession :=
  { s with
    hasCaptured := false
    isCapturing := false
    countdown := none
    showSuccessModal := false
    capturedPhoto := none
    previousScore := 0
    matchScore := 0
    lastCaptureType := none
    saveInFlight := false
    pendingPoseName := none
    pendingScore := none
    pendingCaptureType := none
    mode := Mode.template }

/-- `handleBack` in the auto-capture variant (src/unnamed/part_003 lines
755-764): calls `handleResetCapture`, resets the mode flag, and steps back. -/
def handleBackAuto (s : AutoSession) : AutoSession :=
  let s1 := handleResetCapture s
  let s2 := { s1 with mode := Mode.template }
  if s2.step = Step.camera then { s2 with step := Step.upload } else s2

/-- Counterexample to C9 as stated: in the manual-capture variant
(src/app/camera/page.tsx), retaking a photo and navigating back from the
camera step both leave a nonzero smoothing accumulator untouched. -/
theorem manual_reset_keeps_accumulator :
    (handleRetakePhoto ⟨none, 42, Mode.live, Step.camera⟩).previousScore ≠ 0 ∧
    (handleBackManual ⟨none, 42, Mode.live, Step.camera⟩).previousScore ≠ 0 := by
  constructor <;> norm_num [handleRetakePhoto, handleBackManual]

/-- C9 amended: in the auto-capture variant (src/unnamed/part_003) every
session reset — retry or back — zeroes the smoothing accumulator, while in
the manual-capture variant (src/app/camera/page.tsx) retake and back leave
the accumulator unchanged. -/
theorem reset_smoothing_accumulator (sa : AutoSession) (sm : ManualSession) :
    (handleResetCapture sa).previousScore = 0 ∧
    (handleBackAuto sa).previousScore = 0 ∧
    (handleRetakePhoto sm).previousScore = sm.previousScore ∧
    (handleBackManual sm).previousScore = sm.previousScore := by
  refine ⟨rfl, ?_, rfl, ?_⟩
  · simp only [handleBackAuto]
    split <;> rfl
  · simp only [handleBackManual]
    split <;> rfl
